import Mathlib

/-!
# Verification of the buda-portfolio service

A shallow embedding of the portfolio-valuation service: the portfolio
service (src/portfolio/service.py), the Buda price provider
(src/portfolio/providers/price/buda/), the REST handler
(src/rest/router.py) and the shared HTTP client's header handling
(src/shared/http_client.py).

Python Decimal values are modelled as exact rationals (ℚ); Python dicts
keep insertion order, so a portfolio is an association list
`List (String × ℚ)`.  Provider calls are made observable by threading an
explicit call trace through the service functions, mirroring the source
statement by statement.
-/

namespace BudaPortfolio

/-- ASCII model of Python str.lower: lower-case every character. -/
def pyLower (s : String) : String :=
  ⟨s.data.map Char.toLower⟩

/-- Embeds PortfolioService._build_market_id (src/portfolio/service.py):
the asset, a dash and the target currency are concatenated and the
whole string is lower-cased. -/
def build_market_id (asset : String) (target_currency : String) : String :=
  pyLower (asset ++ "-" ++ target_currency)

/-- Modelled from the spec: src/shared/types.py is not among the sources;
the spec defines a portfolio as "a mapping from asset symbol (string) to a
decimal amount", keys unique, iterated in insertion order (Python dict). -/
abbrev PortfolioType : Type := List (String × ℚ)

/-- Abstract view of the price provider the service is constructed with:
its valid-markets list and its per-market price lookup (which, like the
Python call, may fail with an upstream error). -/
structure PriceProvider where
  valid_markets : List String
  market_price : String → Except String ℚ

/-- One observable outbound call made through the provider. -/
inductive ProviderCall where
  | validMarkets : ProviderCall
  | price : String → ProviderCall
  deriving DecidableEq, Repr

/-- Model of the fastapi HTTPException raised by the service. -/
structure HTTPExceptionE where
  status_code : Nat
  detail : String
  deriving DecidableEq, Repr

/-- Embeds the loop of PortfolioService.validate_portfolio_assets: for
each asset in order, derive its market id; if the market is not in the
valid-markets list, raise HTTPException with status 400 and detail
"Invalid asset: " followed by the asset. -/
def validateLoop (valid_markets : List String) (target_currency : String) :
    List (String × ℚ) → Except HTTPExceptionE Unit
  | [] => Except.ok ()
  | (asset, _) :: rest =>
      let market := build_market_id asset target_currency
      if market ∈ valid_markets then
        validateLoop valid_markets target_currency rest
      else
        Except.error ⟨400, "Invalid asset: " ++ asset⟩

/-- Embeds PortfolioService.validate_portfolio_assets
(src/portfolio/service.py, lines 15-23): get_valid_markets is called
once, before the loop, then each asset's derived market is checked.  The
second component records the provider calls issued, in order. -/
def validate_portfolio_assets (p : PriceProvider) (portfolio : PortfolioType)
    (target_currency : String) :
    Except HTTPExceptionE Unit × List ProviderCall :=
  (validateLoop p.valid_markets target_currency portfolio, [ProviderCall.validMarkets])

/-- Embeds the loop of PortfolioService.get_portfolio_value: for each
asset and amount in order, derive the market id, fetch its price through
the provider and add price times amount to the accumulator.  A failing
price lookup propagates (the Python exception aborts the loop); the trace
records every get_market_price call made, including a failing one. -/
def valueLoop (p : PriceProvider) (target_currency : String) :
    List (String × ℚ) → ℚ → List ProviderCall →
    Except String ℚ × List ProviderCall
  | [], value, trace => (Except.ok value, trace)
  | (asset, amount) :: rest, value, trace =>
      let market := build_market_id asset target_currency
      match p.market_price market with
      | Except.error e => (Except.error e, trace ++ [ProviderCall.price market])
      | Except.ok price =>
          valueLoop p target_currency rest (value + price * amount)
            (trace ++ [ProviderCall.price market])

/-- Embeds PortfolioService.get_portfolio_value
(src/portfolio/service.py, lines 25-33): the accumulator starts at
Decimal zero, then the loop runs.  The second component is the trace of
provider calls issued. -/
def get_portfolio_value (p : PriceProvider) (portfolio : PortfolioType)
    (target_currency : String) : Except String ℚ × List ProviderCall :=
  valueLoop p target_currency portfolio 0 []

/-- The worked example provider of the spec: markets btc-clp, eth-clp and
usdt-clp with prices 50000, 3000 and 1. -/
def exampleProvider : PriceProvider :=
  ⟨["btc-clp", "eth-clp", "usdt-clp"],
    fun m =>
      if m = "btc-clp" then Except.ok 50000
      else if m = "eth-clp" then Except.ok 3000
      else if m = "usdt-clp" then Except.ok 1
      else Except.error "not found"⟩

/-- The worked example portfolio of the spec: one BTC, two ETH, three
USDT. -/
def examplePortfolio : PortfolioType :=
  [("BTC", 1), ("ETH", 2), ("USDT", 3)]

/-! ## The Buda provider (src/portfolio/providers/price/buda/) -/

/-- Upstream market descriptor: the required fields of the pydantic model
of one market (src/portfolio/providers/price/buda/models.py); the many
optional statistics fields are not consumed anywhere and are omitted. -/
structure BudaMarket where
  base_currency : String
  quote_currency : String
  id : String
  deriving DecidableEq, Repr

/-- Embeds BudaMarketsResponse: the parsed body of GET /markets. -/
structure BudaMarketsResponse where
  markets : List BudaMarket
  deriving DecidableEq, Repr

/-- Upstream ticker: the required fields of the pydantic model of one
ticker (models.py).  The price fields are two-element arrays of strings,
amount then currency code; the float statistics fields are omitted as
unconsumed. -/
structure BudaTicker where
  market_id : String
  last_price : List String
  min_ask : List String
  max_bid : List String
  volume : List String
  deriving DecidableEq, Repr

/-- Embeds BudaMarketTickerResponse: the parsed body of
GET /markets/(market)/ticker. -/
structure BudaMarketTickerResponse where
  ticker : BudaTicker
  deriving DecidableEq, Repr

/-- Embeds BudaClient.get_market_price (client.py, lines 16-18): it GETs
the ticker endpoint for the market and returns the whole parsed response
— it does not reduce it to a price. -/
def BudaClient.get_market_price (fetchTicker : String → BudaMarketTickerResponse)
    (market : String) : BudaMarketTickerResponse :=
  fetchTicker market

/-- Embeds BudaPriceProvider.get_valid_markets (provider.py, lines
11-12): a list comprehension lower-casing the id of every market of the
upstream markets response. -/
def BudaPriceProvider.get_valid_markets (resp : BudaMarketsResponse) : List String :=
  resp.markets.map (fun m => pyLower m.id)

/-- Embeds BudaPriceProvider.get_portfolio_value (provider.py, lines
14-17): stubbed to return Decimal zero regardless of its arguments. -/
def BudaPriceProvider.get_portfolio_value (_portfolio : PortfolioType)
    (_target_currency : String) : ℚ :=
  0

/-! ## Method tables

Python resolves attribute accesses by name at run time; an access to a
name a class does not define raises AttributeError.  The method names
each class defines are transcribed from the class bodies. -/

/-- The method names declared by class PriceProviderInterface
(src/portfolio/providers/price/interface.py). -/
def PriceProviderInterface.methods : List String :=
  ["get_valid_markets", "get_portfolio_value"]

/-- The method names defined by class BudaPriceProvider (provider.py). -/
def BudaPriceProvider.methods : List String :=
  ["__init__", "get_valid_markets", "get_portfolio_value"]

/-- The method names defined by class PortfolioService
(src/portfolio/service.py). -/
def PortfolioService.methods : List String :=
  ["__init__", "_build_market_id", "validate_portfolio_assets", "get_portfolio_value"]

/-- The attribute names PortfolioService accesses on its injected price
provider (service.py, lines 18 and 31). -/
def PortfolioService.providerMethodsUsed : List String :=
  ["get_valid_markets", "get_market_price"]

/-! ## The REST handler (src/rest/router.py) -/

/-- Embeds PortfolioValueRequest (src/rest/schemas/request/portfolio.py). -/
structure PortfolioValueRequest where
  portfolio : PortfolioType
  fiat_currency : String

/-- What the handler evaluates to: an uncaught AttributeError (surfaced
by fastapi as a server error) or an HTTP response with a status and a
decimal value body. -/
inductive RouterOutcome where
  | attributeError : String → RouterOutcome
  | response : Nat → ℚ → RouterOutcome
  deriving Repr

/-- Embeds the handler portfolio_value (src/rest/router.py, lines 12-18):
it constructs the service, then accesses the attribute named
validate_portfolio on it.  PortfolioService defines no such method, so
the lookup raises AttributeError before anything else runs; had the
lookup succeeded, the handler's own return statement is the constant
response PortfolioValueResponse with value 1000. -/
def portfolio_value (_req : PortfolioValueRequest) : RouterOutcome :=
  if "validate_portfolio" ∈ PortfolioService.methods then
    RouterOutcome.response 200 1000
  else
    RouterOutcome.attributeError "validate_portfolio"

/-! ## Header handling of the shared HTTP client (src/shared/http_client.py)

Python evaluates a parameter's default value once, at import time, and
every call that omits the argument shares that one object.  Both
HTTPClient.__init__ and create_client declare a headers parameter whose
default is a fresh empty dict at import time; the constructor then calls
update on whatever dict object it received, mutating it in place.  The
two shared default dict objects form the module's mutable state. -/

/-- Model of Python dict item assignment on an insertion-ordered
association list: overwrite in place, or append a new key at the end. -/
def dictSet (d : List (String × String)) (k v : String) : List (String × String) :=
  if d.any (fun p => p.1 = k) then
    d.map (fun p => if p.1 = k then (k, v) else p)
  else
    d ++ [(k, v)]

/-- Model of Python dict.update: set every pair of the other dict in
order. -/
def dictUpdate (d other : List (String × String)) : List (String × String) :=
  other.foldl (fun acc p => dictSet acc p.1 p.2) d

/-- The default headers HTTPClient.__init__ builds
(src/shared/http_client.py, lines 52-55). -/
def default_headers : List (String × String) :=
  [("Accept", "application/json"), ("Content-Type", "application/json")]

/-- The effect of HTTPClient.__init__ on the contents of the dict object
bound to its headers parameter: the constructor calls update with the
default headers on it (http_client.py, line 85), so after the call the
object holds its old entries updated with the defaults. -/
def init_headers_effect (headers : List (String × String)) :
    List (String × String) :=
  dictUpdate headers default_headers

/-- The module-level mutable state created when http_client.py is
imported: the dict objects evaluated once as the default values of the
headers parameters of HTTPClient.__init__ and create_client.  Both start
empty. -/
structure HeadersModuleState where
  init_default : List (String × String)
  create_default : List (String × String)
  deriving DecidableEq, Repr

/-- The module state right after import: both shared default dicts are
empty. -/
def initialHeadersState : HeadersModuleState := ⟨[], []⟩

/-- Constructing HTTPClient without a headers argument: the shared
default dict of HTTPClient.__init__ is the object passed, and the
constructor mutates it in place. -/
def HTTPClient_init_omitted (st : HeadersModuleState) : HeadersModuleState :=
  { st with init_default := init_headers_effect st.init_default }

/-- Calling create_client without a headers argument: its own shared
default dict is forwarded to HTTPClient.__init__ (http_client.py, lines
304-330), which mutates that object in place. -/
def create_client_omitted (st : HeadersModuleState) : HeadersModuleState :=
  { st with create_default := init_headers_effect st.create_default }

/-! ## Helper lemmas -/

/-- Lower-casing distributes over string concatenation. -/
theorem pyLower_append (a b : String) : pyLower (a ++ b) = pyLower a ++ pyLower b := by
  cases a with
  | mk da =>
      cases b with
      | mk db =>
          show String.mk ((String.mk da ++ String.mk db).data.map Char.toLower) = _
          simp [pyLower, String.ext_iff]

/-- Unfolding helper: the value of an in-range character built by
Char.ofNatAux. -/
theorem char_ofNatAux_toNat (n : ℕ) (h : n.isValidChar) :
    (Char.ofNatAux n h).toNat = n := by
  simp [Char.ofNatAux, Char.toNat, UInt32.toNat]

/-- A character outside the upper-case ASCII range is fixed by
Char.toLower. -/
theorem char_toLower_eq_of_not (c : Char)
    (h : ¬(c.toNat ≥ 65 ∧ c.toNat ≤ 90)) : Char.toLower c = c := by
  unfold Char.toLower
  rw [if_neg h]

/-- Lower-casing a character twice is the same as once. -/
theorem char_toLower_idem (c : Char) :
    Char.toLower (Char.toLower c) = Char.toLower c := by
  by_cases h : c.toNat ≥ 65 ∧ c.toNat ≤ 90
  · have hv : (c.toNat + 32).isValidChar := Or.inl (by omega)
    have h1 : Char.toLower c = Char.ofNatAux (c.toNat + 32) hv := by
      unfold Char.toLower Char.ofNat
      rw [if_pos h, dif_pos hv]
    have h2 : (Char.toLower c).toNat = c.toNat + 32 := by
      rw [h1, char_ofNatAux_toNat]
    apply char_toLower_eq_of_not
    rw [h2]
    omega
  · rw [char_toLower_eq_of_not c h]
    exact char_toLower_eq_of_not c h

/-- Lower-casing a string twice is the same as once. -/
theorem pyLower_idem (s : String) : pyLower (pyLower s) = pyLower s := by
  show String.mk ((s.data.map Char.toLower).map Char.toLower) = _
  rw [List.map_map]
  exact congrArg String.mk (List.map_congr_left (fun a _ => char_toLower_idem a))

/-- The validation loop reports exactly the first asset, in list order,
whose derived market is absent from the valid-markets list. -/
theorem validateLoop_eq_find (valid : List String) (tc : String)
    (portfolio : List (String × ℚ)) :
    validateLoop valid tc portfolio =
      (match portfolio.find?
          (fun x => !(decide (build_market_id x.1 tc ∈ valid))) with
        | none => Except.ok ()
        | some x => Except.error ⟨400, "Invalid asset: " ++ x.1⟩) := by
  induction portfolio with
  | nil => rfl
  | cons x rest ih =>
      obtain ⟨asset, amount⟩ := x
      by_cases h : build_market_id asset tc ∈ valid
      · simpa [validateLoop, List.find?_cons, h] using ih
      · simp [validateLoop, List.find?_cons, h]

/-- When every price lookup succeeds, the valuation loop accumulates the
sum of price times amount and records one price call per asset. -/
theorem valueLoop_ok (p : PriceProvider) (tc : String) (price : String → ℚ)
    (portfolio : List (String × ℚ)) :
    ∀ (v : ℚ) (trace : List ProviderCall),
    (∀ x ∈ portfolio, p.market_price (build_market_id x.1 tc)
        = Except.ok (price (build_market_id x.1 tc))) →
    valueLoop p tc portfolio v trace =
      (Except.ok (v + (portfolio.map
          (fun x => price (build_market_id x.1 tc) * x.2)).sum),
        trace ++ portfolio.map
          (fun x => ProviderCall.price (build_market_id x.1 tc))) := by
  induction portfolio with
  | nil => intro v trace _; simp [valueLoop]
  | cons x rest ih =>
      intro v trace h
      obtain ⟨asset, amount⟩ := x
      have hx := h (asset, amount) (by simp)
      have hrest : ∀ y ∈ rest, p.market_price (build_market_id y.1 tc)
          = Except.ok (price (build_market_id y.1 tc)) :=
        fun y hy => h y (List.mem_cons_of_mem _ hy)
      simp only [valueLoop, hx]
      rw [ih _ _ hrest]
      simp [add_assoc]

/-- If some asset of the portfolio has a failing price lookup, the
valuation loop ends in an error. -/
theorem valueLoop_error (p : PriceProvider) (tc : String)
    (portfolio : List (String × ℚ)) :
    ∀ (v : ℚ) (trace : List ProviderCall) (x : String × ℚ), x ∈ portfolio →
    (∃ e, p.market_price (build_market_id x.1 tc) = Except.error e) →
    ∃ e, (valueLoop p tc portfolio v trace).1 = Except.error e := by
  induction portfolio with
  | nil => intro v trace x hx _; cases hx
  | cons y rest ih =>
      intro v trace x hx he
      obtain ⟨asset, amount⟩ := y
      rcases List.mem_cons.mp hx with h | h
      · obtain ⟨e, he⟩ := he
        subst h
        simp [valueLoop, he]
      · cases hm : p.market_price (build_market_id asset tc) with
        | error e => exact ⟨e, by simp [valueLoop, hm]⟩
        | ok q =>
            obtain ⟨e, hfin⟩ := ih _ _ x h he
            exact ⟨e, by simpa [valueLoop, hm] using hfin⟩

/-- The valuation loop's call trace on the success path: the incoming
trace followed by one price call per asset, in order. -/
theorem valueLoop_trace (p : PriceProvider) (tc : String)
    (portfolio : List (String × ℚ)) :
    ∀ (v : ℚ) (trace : List ProviderCall),
    (∀ x ∈ portfolio, ∃ q, p.market_price (build_market_id x.1 tc)
        = Except.ok q) →
    (valueLoop p tc portfolio v trace).2 =
      trace ++ portfolio.map
        (fun x => ProviderCall.price (build_market_id x.1 tc)) := by
  induction portfolio with
  | nil => intro v trace _; simp [valueLoop]
  | cons y rest ih =>
      intro v trace h
      obtain ⟨asset, amount⟩ := y
      obtain ⟨q, hq⟩ := h (asset, amount) (by simp)
      have hrest : ∀ x ∈ rest, ∃ q, p.market_price (build_market_id x.1 tc)
          = Except.ok q :=
        fun x hx => h x (List.mem_cons_of_mem _ hx)
      simp only [valueLoop, hq]
      rw [ih _ _ hrest]
      simp

/-! ## Claim theorems -/

/-- C1: for every portfolio whose assets' derived markets are all valid,
PortfolioService.get_portfolio_value returns the sum over all assets of
amount times the provider's price for the asset's derived market
identifier, computed with exact (rational, non-floating-point)
arithmetic. -/
theorem get_portfolio_value_sum (p : PriceProvider) (portfolio : PortfolioType)
    (tc : String) (price : String → ℚ)
    (_hvalid : ∀ x ∈ portfolio, build_market_id x.1 tc ∈ p.valid_markets)
    (hprice : ∀ x ∈ portfolio, p.market_price (build_market_id x.1 tc)
        = Except.ok (price (build_market_id x.1 tc))) :
    (get_portfolio_value p portfolio tc).1 =
      Except.ok ((portfolio.map
        (fun x => x.2 * price (build_market_id x.1 tc))).sum) := by
  have h := valueLoop_ok p tc price portfolio 0 [] hprice
  have hmap : portfolio.map (fun x => price (build_market_id x.1 tc) * x.2)
      = portfolio.map (fun x => x.2 * price (build_market_id x.1 tc)) :=
    List.map_congr_left (fun a _ => mul_comm _ _)
  rw [get_portfolio_value, h]
  simp [hmap]

/-- C1 witness: the spec's worked example, one BTC at 50000, two ETH at
3000, three USDT at 1, all in valid markets, values to 56003. -/
theorem get_portfolio_value_sum_witness :
    (get_portfolio_value exampleProvider examplePortfolio "CLP").1
      = Except.ok 56003 := by
  have h := get_portfolio_value_sum exampleProvider examplePortfolio "CLP"
    (fun m => if m = "btc-clp" then 50000 else if m = "eth-clp" then 3000 else 1)
    (by decide)
    (by
      intro x hx
      simp only [examplePortfolio, List.mem_cons, List.not_mem_nil, or_false] at hx
      rcases hx with rfl | rfl | rfl <;> rfl)
  have e1 : build_market_id "BTC" "CLP" = "btc-clp" := by decide
  have e2 : build_market_id "ETH" "CLP" = "eth-clp" := by decide
  have e3 : build_market_id "USDT" "CLP" = "usdt-clp" := by decide
  have n1 : ("eth-clp" : String) ≠ "btc-clp" := by decide
  have n2 : ("usdt-clp" : String) ≠ "btc-clp" := by decide
  have n3 : ("usdt-clp" : String) ≠ "eth-clp" := by decide
  rw [h]
  norm_num [examplePortfolio, e1, e2, e3, n1, n2, n3]

/-- C2: validation fetches the valid-markets set exactly once per call,
checks each asset's derived market in insertion order, fails with the
HTTP 400 exception naming the first asset whose market is absent, and
succeeds exactly when every asset's derived market is a member. -/
theorem validate_portfolio_assets_spec (p : PriceProvider)
    (portfolio : PortfolioType) (tc : String) :
    (validate_portfolio_assets p portfolio tc).2 = [ProviderCall.validMarkets] ∧
    (validate_portfolio_assets p portfolio tc).1 =
      (match portfolio.find?
          (fun x => !(decide (build_market_id x.1 tc ∈ p.valid_markets))) with
        | none => Except.ok ()
        | some x => Except.error ⟨400, "Invalid asset: " ++ x.1⟩) ∧
    ((validate_portfolio_assets p portfolio tc).1 = Except.ok () ↔
      ∀ x ∈ portfolio, build_market_id x.1 tc ∈ p.valid_markets) := by
  refine ⟨rfl, validateLoop_eq_find _ _ _, ?_⟩
  rw [show (validate_portfolio_assets p portfolio tc).1
      = validateLoop p.valid_markets tc portfolio from rfl,
    validateLoop_eq_find]
  cases hf : portfolio.find?
      (fun x => !(decide (build_market_id x.1 tc ∈ p.valid_markets))) with
  | none =>
      simp only []
      constructor
      · intro _ x hx
        have := List.find?_eq_none.mp hf x hx
        simpa using this
      · intro _; trivial
  | some x =>
      simp only []
      constructor
      · intro h; cases h
      · intro h
        have hx := List.find?_some hf
        have hmem := List.mem_of_find?_eq_some hf
        have := h x hmem
        simp [this] at hx

/-- C6: the empty portfolio values to exactly zero with an empty provider
call trace, so in particular no price lookup happens. -/
theorem get_portfolio_value_empty (p : PriceProvider) (tc : String) :
    get_portfolio_value p [] tc = (Except.ok 0, []) := rfl

/-- C7: on the success path the valuation issues exactly one price lookup
per asset, derived from the asset alone (so a zero amount is still looked
up); and when any asset of the portfolio has a failing lookup — zero
amount included — the whole valuation fails. -/
theorem get_portfolio_value_lookups (p : PriceProvider)
    (portfolio : PortfolioType) (tc : String) :
    ((∀ x ∈ portfolio, ∃ q, p.market_price (build_market_id x.1 tc)
        = Except.ok q) →
      (get_portfolio_value p portfolio tc).2 =
        portfolio.map (fun x => ProviderCall.price (build_market_id x.1 tc))) ∧
    (∀ x ∈ portfolio,
      (∃ e, p.market_price (build_market_id x.1 tc) = Except.error e) →
      ∃ e, (get_portfolio_value p portfolio tc).1 = Except.error e) := by
  constructor
  · intro hok
    show (valueLoop p tc portfolio 0 []).2 = _
    rw [valueLoop_trace p tc portfolio 0 [] hok]
    simp
  · intro x hx he
    exact valueLoop_error p tc portfolio 0 [] x hx he

/-- C2 witness: validating one BTC and four DOGE against the example
markets reports the first (and only) invalid asset, DOGE, with status 400. -/
theorem validate_portfolio_assets_spec_witness :
    (validate_portfolio_assets exampleProvider
        [("BTC", 1), ("DOGE", 4)] "CLP").1
      = Except.error ⟨400, "Invalid asset: DOGE"⟩ := by
  have h := (validate_portfolio_assets_spec exampleProvider
      [("BTC", 1), ("DOGE", 4)] "CLP").2.1
  rw [h]
  rfl

/-- C7 witness: a zero-amount BTC entry still triggers a btc-clp price
lookup, and a portfolio holding only a zero amount of an unknown asset
still fails as a whole when its lookup fails. -/
theorem get_portfolio_value_lookups_witness :
    (get_portfolio_value exampleProvider [("BTC", 0), ("ETH", 2)] "CLP").2
      = [ProviderCall.price "btc-clp", ProviderCall.price "eth-clp"] ∧
    ∃ e, (get_portfolio_value exampleProvider [("DOGE", 0)] "CLP").1
      = Except.error e := by
  constructor
  · have h := (get_portfolio_value_lookups exampleProvider
        [("BTC", 0), ("ETH", 2)] "CLP").1
      (by
        intro x hx
        simp only [List.mem_cons, List.not_mem_nil, or_false] at hx
        rcases hx with rfl | rfl
        · exact ⟨50000, rfl⟩
        · exact ⟨3000, rfl⟩)
    rw [h]
    decide
  · exact (get_portfolio_value_lookups exampleProvider [("DOGE", 0)] "CLP").2
      ("DOGE", 0) (by simp) ⟨"not found", rfl⟩

/-- C8: market identifier derivation is the lower-cased concatenation of
asset, dash and currency; it is deterministic and case-insensitive (any
case variants of the same asset and currency derive the same identifier),
and BTC with CLP derives btc-clp. -/
theorem build_market_id_spec :
    (∀ a c, build_market_id a c = pyLower a ++ "-" ++ pyLower c) ∧
    (∀ a₁ c₁ a₂ c₂, pyLower a₁ = pyLower a₂ → pyLower c₁ = pyLower c₂ →
      build_market_id a₁ c₁ = build_market_id a₂ c₂) ∧
    build_market_id "BTC" "CLP" = "btc-clp" := by
  have hd : pyLower "-" = "-" := by decide
  have key : ∀ a c, build_market_id a c = pyLower a ++ "-" ++ pyLower c := by
    intro a c
    show pyLower (a ++ "-" ++ c) = _
    rw [pyLower_append, pyLower_append, hd]
  refine ⟨key, ?_, by decide⟩
  intro a₁ c₁ a₂ c₂ h₁ h₂
  rw [key, key, h₁, h₂]

/-- C8 witness: case variants of BTC and CLP all derive btc-clp, the
lower-cased concatenation. -/
theorem build_market_id_spec_witness :
    build_market_id "BTC" "CLP" = build_market_id "bTc" "cLp" ∧
    build_market_id "BTC" "CLP" = pyLower "BTC" ++ "-" ++ pyLower "CLP" :=
  ⟨build_market_id_spec.2.1 "BTC" "CLP" "bTc" "cLp" (by decide) (by decide),
    build_market_id_spec.1 "BTC" "CLP"⟩

/-- C9: the handler's success path is unreachable: PortfolioService does
not define validate_portfolio (it defines validate_portfolio_assets), so
every request to the handler raises AttributeError before any validation
or valuation runs. -/
theorem portfolio_value_success_unreachable :
    "validate_portfolio" ∉ PortfolioService.methods ∧
    "validate_portfolio_assets" ∈ PortfolioService.methods ∧
    ∀ req : PortfolioValueRequest,
      portfolio_value req = RouterOutcome.attributeError "validate_portfolio" :=
  ⟨by decide, by decide, fun _ => rfl⟩

/-- C3 (code bug): at the integration test's valid request — the example
portfolio against CLP — the handler raises AttributeError instead of
returning HTTP 200, although the value the tests expect the service to
compute (all prices mocked to 10) is 60. -/
theorem portfolio_value_example_request :
    portfolio_value ⟨examplePortfolio, "CLP"⟩
        = RouterOutcome.attributeError "validate_portfolio" ∧
    (get_portfolio_value
        ⟨["btc-clp", "eth-clp", "usdt-clp"], fun _ => Except.ok 10⟩
        examplePortfolio "CLP").1
      = Except.ok 60 := by
  constructor
  · rfl
  · have h : (get_portfolio_value
        ⟨["btc-clp", "eth-clp", "usdt-clp"], fun _ => Except.ok 10⟩
        examplePortfolio "CLP").1
        = Except.ok (((0 + 10 * 1) + 10 * 2) + 10 * 3) := rfl
    rw [h]
    norm_num

/-- C4 (code bug): the provider interface does not declare
get_market_price, and BudaPriceProvider does not define it, although the
portfolio service invokes exactly that method on its injected provider. -/
theorem get_market_price_missing :
    "get_market_price" ∉ PriceProviderInterface.methods ∧
    "get_market_price" ∉ BudaPriceProvider.methods ∧
    "get_market_price" ∈ PortfolioService.providerMethodsUsed := by
  decide

/-- Upstream markets response whose two ids lower-case to the same
identifier. -/
def dupMarketsResponse : BudaMarketsResponse :=
  ⟨[⟨"BTC", "CLP", "BTC-CLP"⟩, ⟨"BTC", "CLP", "btc-clp"⟩]⟩

/-- C5 counterexample: get_valid_markets returns a list, not a set — an
upstream market list whose ids lower-case to the same identifier yields a
result with a duplicate. -/
theorem get_valid_markets_not_set :
    BudaPriceProvider.get_valid_markets dupMarketsResponse
        = ["btc-clp", "btc-clp"] ∧
    ¬ (BudaPriceProvider.get_valid_markets dupMarketsResponse).Nodup := by
  refine ⟨rfl, ?_⟩
  decide

/-- C5 (amended): get_valid_markets returns the list of each upstream
market's identifier lower-cased, in upstream order with duplicates kept;
every element of the result is fully lower-case (fixed by lower-casing),
and an identifier is in the result iff it is the lower-casing of some
upstream market's id. -/
theorem get_valid_markets_spec (resp : BudaMarketsResponse) :
    BudaPriceProvider.get_valid_markets resp
        = resp.markets.map (fun m => pyLower m.id) ∧
    (∀ s ∈ BudaPriceProvider.get_valid_markets resp, pyLower s = s) ∧
    ∀ s, s ∈ BudaPriceProvider.get_valid_markets resp ↔
      ∃ m ∈ resp.markets, pyLower m.id = s := by
  refine ⟨rfl, ?_, ?_⟩
  · intro s hs
    simp only [BudaPriceProvider.get_valid_markets, List.mem_map] at hs
    obtain ⟨m, _, rfl⟩ := hs
    exact pyLower_idem m.id
  · intro s
    simp [BudaPriceProvider.get_valid_markets]

/-- C5 witness: a one-market upstream list with id BTC-CLP yields a
result whose element btc-clp is fully lower-case and reachable as the
lower-casing of the upstream id. -/
theorem get_valid_markets_spec_witness :
    pyLower "btc-clp" = "btc-clp" ∧
    "btc-clp" ∈ BudaPriceProvider.get_valid_markets
        ⟨[⟨"BTC", "CLP", "BTC-CLP"⟩]⟩ := by
  have h := get_valid_markets_spec ⟨[⟨"BTC", "CLP", "BTC-CLP"⟩]⟩
  constructor
  · exact h.2.1 "btc-clp" (by decide)
  · exact (h.2.2 "btc-clp").mpr ⟨⟨"BTC", "CLP", "BTC-CLP"⟩, by simp, by decide⟩

/-- C10: the constructor mutates the dict object bound to its headers
parameter in place (its contents afterwards are the old entries updated
with the default Accept and Content-Type headers), and since the omitted
headers argument is one shared module-level dict, a construction that
omits headers mutates that shared default, which a later construction
then observes — the same for the create_client wrapper. -/
theorem httpclient_shared_headers_mutation :
    (∀ h, init_headers_effect h = dictUpdate h default_headers) ∧
    init_headers_effect [("X-Custom", "1")]
        = [("X-Custom", "1"), ("Accept", "application/json"),
            ("Content-Type", "application/json")] ∧
    init_headers_effect [("X-Custom", "1")] ≠ [("X-Custom", "1")] ∧
    (HTTPClient_init_omitted initialHeadersState).init_default
        = default_headers ∧
    (HTTPClient_init_omitted initialHeadersState).init_default
        ≠ initialHeadersState.init_default ∧
    (create_client_omitted initialHeadersState).create_default
        ≠ initialHeadersState.create_default := by
  refine ⟨fun _ => rfl, by decide, by decide, by decide, by decide, by decide⟩

end BudaPortfolio
